import Mathlib

/-
Verification of the youtube_transcript_collector pipeline.

The development shallowly embeds the core functions of
`src/youtube_transcript_collector/api.py` and
`src/youtube_transcript_collector/transcript.py`:

* the identifier resolver `get_channel_id`,
* the video enumerator `get_all_video_ids`,
* the metadata fetcher `get_video_metadata` (batching and per-item record
  construction),
* the persistence writer `save_transcript`,
* the collection orchestrator `download_channel_transcripts`.

Network endpoints are modelled as oracle functions (the JSON payloads the code
inspects become Lean values), the filesystem becomes an explicit list of
existing paths threaded through the orchestrator loop, and console/progress
rendering — which affects no observable state — is elided.
-/

namespace YTC

/-! ### Metadata fetcher (`api.py`, `get_video_metadata`) -/

/-- The metadata record built by `get_video_metadata` (api.py lines 249-257):
a dict with keys title, description, publishedAt, channelTitle, duration,
viewCount, likeCount, all strings. -/
structure VideoMetadata where
  title : String
  description : String
  publishedAt : String
  channelTitle : String
  duration : String
  viewCount : String
  likeCount : String
  deriving DecidableEq

/-- The `snippet` facet of an item returned by the bulk video-details
endpoint; every field may be missing (`item.get("snippet", {})` followed by
`snippet.get(...)` in the source). -/
structure RawSnippet where
  title : Option String
  description : Option String
  publishedAt : Option String
  channelTitle : Option String
  deriving DecidableEq

/-- The `contentDetails` facet of a raw item; the only field the code reads is
`duration`. -/
structure RawContentDetails where
  duration : Option String
  deriving DecidableEq

/-- The `statistics` facet of a raw item; the code reads `viewCount` and
`likeCount`. -/
structure RawStatistics where
  viewCount : Option String
  likeCount : Option String
  deriving DecidableEq

/-- One item of the bulk video-details response (api.py lines 243-247).
Each facet may be absent (`item.get("snippet", {})` etc.); `id` is always
present (`item["id"]` is indexed directly). -/
structure RawVideoItem where
  id : String
  snippet : Option RawSnippet
  contentDetails : Option RawContentDetails
  statistics : Option RawStatistics
  deriving DecidableEq

/-- A missing `snippet` facet: Python `item.get("snippet", {})` yields an empty
dict, on which every `get` returns the default. -/
def emptyRawSnippet : RawSnippet := ⟨none, none, none, none⟩

/-- Construction of one `VideoMetadata` record from a raw response item
(api.py lines 243-257): `snippet.get("title", "Unknown Title")`,
`statistics.get("viewCount", "0")`, `statistics.get("likeCount", "0")`, and
empty-string defaults for the remaining fields. -/
def build_video_metadata (item : RawVideoItem) : VideoMetadata :=
  let snippet := item.snippet.getD emptyRawSnippet
  let content_details := item.contentDetails.getD ⟨none⟩
  let statistics := item.statistics.getD ⟨none, none⟩
  { title := snippet.title.getD "Unknown Title"
    description := snippet.description.getD ""
    publishedAt := snippet.publishedAt.getD ""
    channelTitle := snippet.channelTitle.getD ""
    duration := content_details.duration.getD ""
    viewCount := statistics.viewCount.getD "0"
    likeCount := statistics.likeCount.getD "0" }

/-- Fuel-indexed slicing loop behind `chunks50`.  Models
`for i in range(0, len(video_ids), batch_size): batch = video_ids[i : i + batch_size]`
with `batch_size = 50` (api.py lines 226-227): each iteration takes the next
50 elements and continues on the rest.  The fuel argument only bounds the
number of iterations so that the recursion is structural; `chunks50` passes
the list length, which always suffices because every iteration on a nonempty
list consumes at least one element. -/
def chunks50Aux {α : Type} : Nat → List α → List (List α)
  | 0, _ => []
  | _ + 1, [] => []
  | fuel + 1, v :: rest => ((v :: rest).take 50) :: chunks50Aux fuel ((v :: rest).drop 50)

/-- The consecutive batches of at most 50 video ids that `get_video_metadata`
iterates over (api.py lines 226-227). -/
def chunks50 {α : Type} (l : List α) : List (List α) := chunks50Aux l.length l

/-- The metadata fetcher (api.py lines 199-259).  `fetchBatch` is the bulk
video-details endpoint: one request per batch of at most 50 ids, returning the
items array of the response.  The resulting association list models the
Python dict keyed by video id (insertion order). -/
def get_video_metadata (fetchBatch : List String → List RawVideoItem)
    (video_ids : List String) : List (String × VideoMetadata) :=
  (chunks50 video_ids).flatMap
    (fun batch => (fetchBatch batch).map (fun item => (item.id, build_video_metadata item)))

/-- The number of bulk requests `get_video_metadata` issues: one per batch. -/
def metadata_request_count (video_ids : List String) : Nat :=
  (chunks50 video_ids).length

lemma length_drop50_le_of {α : Type} (v : α) (rest : List α) (m : Nat)
    (h : (v :: rest).length ≤ m + 1) : ((v :: rest).drop 50).length ≤ m := by
  rw [List.length_drop]
  rw [List.length_cons] at h ⊢
  omega

lemma chunks50Aux_irrel {α : Type} :
    ∀ (fuel fuel' : Nat) (l : List α), l.length ≤ fuel → l.length ≤ fuel' →
      chunks50Aux fuel l = chunks50Aux fuel' l := by
  intro fuel
  induction fuel with
  | zero =>
    intro fuel' l h _
    have : l = [] := List.length_eq_zero.mp (Nat.le_zero.mp h)
    subst this
    cases fuel' <;> rfl
  | succ n ih =>
    intro fuel' l h h'
    cases l with
    | nil => cases fuel' <;> rfl
    | cons v rest =>
      cases fuel' with
      | zero => simp at h'
      | succ m =>
        simp only [chunks50Aux]
        congr 1
        exact ih m _ (length_drop50_le_of v rest n h) (length_drop50_le_of v rest m h')

lemma chunks50_nil {α : Type} : chunks50 ([] : List α) = [] := rfl

lemma chunks50_cons {α : Type} (v : α) (rest : List α) :
    chunks50 (v :: rest) = (v :: rest).take 50 :: chunks50 ((v :: rest).drop 50) := by
  unfold chunks50
  simp only [List.length_cons, chunks50Aux]
  congr 1
  exact chunks50Aux_irrel rest.length _ _
    (length_drop50_le_of v rest rest.length (by rw [List.length_cons]))
    (Nat.le_refl _)

lemma chunks50_length {α : Type} (l : List α) :
    (chunks50 l).length = (l.length + 49) / 50 := by
  have H : ∀ (n : Nat) (l : List α), l.length ≤ n → (chunks50 l).length = (l.length + 49) / 50 := by
    intro n
    induction n with
    | zero =>
      intro l h
      have : l = [] := List.length_eq_zero.mp (Nat.le_zero.mp h)
      subst this
      norm_num [chunks50_nil]
    | succ m ih =>
      intro l h
      cases l with
      | nil => norm_num [chunks50_nil]
      | cons v rest =>
        rw [chunks50_cons]
        rw [List.length_cons]
        rw [ih ((v :: rest).drop 50) (length_drop50_le_of v rest m h)]
        rw [List.length_drop]
        simp only [List.length_cons]
        omega
  exact H l.length l (Nat.le_refl _)

lemma chunks50_le_50 {α : Type} (l : List α) :
    ∀ batch ∈ chunks50 l, batch.length ≤ 50 := by
  have H : ∀ (n : Nat) (l : List α), l.length ≤ n →
      ∀ batch ∈ chunks50 l, batch.length ≤ 50 := by
    intro n
    induction n with
    | zero =>
      intro l h
      have : l = [] := List.length_eq_zero.mp (Nat.le_zero.mp h)
      subst this
      intro batch hb
      simp [chunks50_nil] at hb
    | succ m ih =>
      intro l h
      cases l with
      | nil =>
        intro batch hb
        simp [chunks50_nil] at hb
      | cons v rest =>
        rw [chunks50_cons]
        intro batch hb
        rcases List.mem_cons.mp hb with hb | hb
        · subst hb
          rw [List.length_take]
          exact min_le_left _ _
        · exact ih _ (length_drop50_le_of v rest m h) batch hb
  exact H l.length l (Nat.le_refl _)

lemma chunks50_flatten {α : Type} (l : List α) :
    (chunks50 l).flatten = l := by
  have H : ∀ (n : Nat) (l : List α), l.length ≤ n → (chunks50 l).flatten = l := by
    intro n
    induction n with
    | zero =>
      intro l h
      have : l = [] := List.length_eq_zero.mp (Nat.le_zero.mp h)
      subst this
      rfl
    | succ m ih =>
      intro l h
      cases l with
      | nil => rfl
      | cons v rest =>
        rw [chunks50_cons, List.flatten_cons]
        rw [ih _ (length_drop50_le_of v rest m h)]
        exact List.take_append_drop 50 (v :: rest)
  exact H l.length l (Nat.le_refl _)

/-- C6: for every input list of video identifiers, `get_video_metadata`
partitions it into consecutive batches of at most 50 (their concatenation in
order is the input list) and issues exactly ceil(n/50) bulk requests; in
particular 120 identifiers produce exactly 3 requests with batches of sizes
50, 50 and 20. -/
theorem metadata_fetcher_batching (video_ids : List String) :
    metadata_request_count video_ids = (video_ids.length + 49) / 50
    ∧ (∀ batch ∈ chunks50 video_ids, batch.length ≤ 50)
    ∧ (chunks50 video_ids).flatten = video_ids
    ∧ metadata_request_count (List.replicate 120 "v") = 3
    ∧ (chunks50 (List.replicate 120 "v")).map List.length = [50, 50, 20] := by
  refine ⟨chunks50_length video_ids, chunks50_le_50 video_ids, chunks50_flatten video_ids,
    by decide, by decide⟩

/-- Witness for `metadata_fetcher_batching`: on the concrete input
`["a", "b"]` the single batch is a member of the partition and respects the
size bound. -/
theorem metadata_fetcher_batching_witness :
    (["a", "b"] : List String) ∈ chunks50 (["a", "b"] : List String)
    ∧ (["a", "b"] : List String).length ≤ 50 :=
  ⟨by decide, (metadata_fetcher_batching ["a", "b"]).2.1 ["a", "b"] (by decide)⟩

/-- C7: for every item returned by the bulk video-details endpoint,
`get_video_metadata` builds a complete `VideoMetadata` record (the
construction is a total function, so no error is raised); whenever a facet or
field is missing, the documented default is used: title falls back to
"Unknown Title", viewCount and likeCount to "0", and description,
publishedAt, channelTitle and duration to the empty string. -/
theorem metadata_fetcher_defaults (item : RawVideoItem) :
    (item.snippet.bind RawSnippet.title = none →
      (build_video_metadata item).title = "Unknown Title")
    ∧ (item.snippet.bind RawSnippet.description = none →
      (build_video_metadata item).description = "")
    ∧ (item.snippet.bind RawSnippet.publishedAt = none →
      (build_video_metadata item).publishedAt = "")
    ∧ (item.snippet.bind RawSnippet.channelTitle = none →
      (build_video_metadata item).channelTitle = "")
    ∧ (item.contentDetails.bind RawContentDetails.duration = none →
      (build_video_metadata item).duration = "")
    ∧ (item.statistics.bind RawStatistics.viewCount = none →
      (build_video_metadata item).viewCount = "0")
    ∧ (item.statistics.bind RawStatistics.likeCount = none →
      (build_video_metadata item).likeCount = "0") := by
  obtain ⟨vid, snip, cd, st⟩ := item
  refine ⟨?_, ?_, ?_, ?_, ?_, ?_, ?_⟩
  · intro h
    cases snip with
    | none => simp [build_video_metadata, emptyRawSnippet]
    | some s =>
      have h' : s.title = none := h
      simp [build_video_metadata, h']
  · intro h
    cases snip with
    | none => simp [build_video_metadata, emptyRawSnippet]
    | some s =>
      have h' : s.description = none := h
      simp [build_video_metadata, h']
  · intro h
    cases snip with
    | none => simp [build_video_metadata, emptyRawSnippet]
    | some s =>
      have h' : s.publishedAt = none := h
      simp [build_video_metadata, h']
  · intro h
    cases snip with
    | none => simp [build_video_metadata, emptyRawSnippet]
    | some s =>
      have h' : s.channelTitle = none := h
      simp [build_video_metadata, h']
  · intro h
    cases cd with
    | none => simp [build_video_metadata]
    | some c =>
      have h' : c.duration = none := h
      simp [build_video_metadata, h']
  · intro h
    cases st with
    | none => simp [build_video_metadata]
    | some s =>
      have h' : s.viewCount = none := h
      simp [build_video_metadata, h']
  · intro h
    cases st with
    | none => simp [build_video_metadata]
    | some s =>
      have h' : s.likeCount = none := h
      simp [build_video_metadata, h']

/-- Witness for `metadata_fetcher_defaults`: an item with every facet missing
gets the placeholder title. -/
theorem metadata_fetcher_defaults_witness :
    (RawVideoItem.mk "vid1" none none none).snippet.bind RawSnippet.title = none
    ∧ (build_video_metadata (RawVideoItem.mk "vid1" none none none)).title = "Unknown Title" :=
  ⟨rfl, (metadata_fetcher_defaults (RawVideoItem.mk "vid1" none none none)).1 rfl⟩

/-! ### Video enumerator (`api.py`, `get_all_video_ids`) -/

/-- Python truthiness of the optional integer `max_results` in
`if max_results and len(video_ids) >= max_results:` (api.py line 188):
`None` and `0` are falsy. -/
def truthy : Option Nat → Bool
  | none => false
  | some n => n != 0

/-- The inner item loop of `get_all_video_ids` (api.py lines 183-189): each
item's video id is appended to the accumulator; right after each append, if
`max_results` is truthy and the accumulated count has reached it, the function
returns `video_ids[:max_results]` early (modelled by `Except.error`);
otherwise the loop continues and finally hands the accumulator back to the
page loop (`Except.ok`). -/
def addPageItems (max_results : Option Nat) (video_ids : List String) :
    List String → Except (List String) (List String)
  | [] => .ok video_ids
  | v :: items =>
    let acc := video_ids ++ [v]
    if truthy max_results ∧ max_results.getD 0 ≤ acc.length then
      .error (acc.take (max_results.getD 0))
    else
      addPageItems max_results acc items

/-- The page loop of `get_all_video_ids` (api.py lines 163-196).  The provider
is modelled as the list of successive response pages (each the list of video
ids of one `playlistItems` request); the loop fetches pages in order and stops
when no continuation token remains, i.e. when the page list is exhausted.  The
`video_ids` parameter is the accumulator, initially `[]` in the source. -/
def get_all_video_ids (max_results : Option Nat) (video_ids : List String) :
    List (List String) → List String
  | [] => video_ids
  | page :: pages =>
    match addPageItems max_results video_ids page with
    | .error early => early
    | .ok acc => get_all_video_ids max_results acc pages

lemma addPageItems_error (k : Nat) :
    ∀ (page acc : List String), acc.length < k → k ≤ acc.length + page.length →
      addPageItems (some k) acc page = .error ((acc ++ page).take k) := by
  intro page
  induction page with
  | nil =>
    intro acc h1 h2
    simp at h2
    omega
  | cons v items ih =>
    intro acc h1 h2
    have hk : truthy (some k) = true := by
      simp [truthy]
      omega
    by_cases hle : k ≤ (acc ++ [v]).length
    · rw [addPageItems]
      rw [if_pos ⟨hk, by simpa using hle⟩]
      have hlen : (acc ++ [v]).length = acc.length + 1 := by simp
      have hkeq : k = acc.length + 1 := by omega
      have h3 : (acc ++ [v]).take k = acc ++ [v] := by
        rw [hkeq, ← hlen]
        exact List.take_length (acc ++ [v])
      have h4 : (acc ++ v :: items).take k = acc ++ [v] := by
        rw [List.take_append_eq_append_take]
        rw [hkeq]
        rw [List.take_of_length_le (by omega)]
        congr 1
        simp
      simp only [Option.getD_some]
      rw [h3, h4]
    · rw [addPageItems]
      rw [if_neg (by
        intro hc
        exact hle (by simpa using hc.2))]
      have h1' : (acc ++ [v]).length < k := by
        simp only [List.length_append, List.length_cons, List.length_nil]
        simp at hle
        omega
      have h2' : k ≤ (acc ++ [v]).length + items.length := by
        simp only [List.length_append, List.length_cons, List.length_nil] at h2 ⊢
        omega
      rw [ih (acc ++ [v]) h1' h2']
      rw [List.append_assoc]
      rfl

lemma addPageItems_ok (k : Nat) :
    ∀ (page acc : List String), acc.length + page.length < k →
      addPageItems (some k) acc page = .ok (acc ++ page) := by
  intro page
  induction page with
  | nil =>
    intro acc _
    simp [addPageItems]
  | cons v items ih =>
    intro acc h
    rw [addPageItems]
    rw [if_neg (by
      intro hc
      have := hc.2
      simp only [Option.getD_some, List.length_append, List.length_cons, List.length_nil] at this
      simp only [List.length_cons] at h
      omega)]
    have h' : (acc ++ [v]).length + items.length < k := by
      simp only [List.length_append, List.length_cons, List.length_nil] at h ⊢
      omega
    rw [ih (acc ++ [v]) h']
    rw [List.append_assoc]
    rfl

lemma get_all_video_ids_spec (k : Nat) :
    ∀ (pages : List (List String)) (acc : List String),
      acc.length < k → k ≤ acc.length + pages.flatten.length →
      get_all_video_ids (some k) acc pages = (acc ++ pages.flatten).take k := by
  intro pages
  induction pages with
  | nil =>
    intro acc h1 h2
    simp at h2
    omega
  | cons page rest ih =>
    intro acc h1 h2
    rw [get_all_video_ids]
    by_cases hcase : k ≤ acc.length + page.length
    · rw [addPageItems_error k page acc h1 hcase]
      simp only []
      rw [List.flatten_cons, ← List.append_assoc]
      exact (List.take_append_of_le_length
        (by simp only [List.length_append]; omega)).symm
    · push_neg at hcase
      rw [addPageItems_ok k page acc hcase]
      simp only []
      have h2' : k ≤ (acc ++ page).length + rest.flatten.length := by
        simp only [List.length_append]
        rw [List.flatten_cons, List.length_append] at h2
        omega
      rw [ih (acc ++ page) (by simp only [List.length_append]; omega) h2']
      rw [List.flatten_cons, List.append_assoc]

/-- C4 fails as stated when `maxResults` is set to `0`: Python's
`if max_results and ...` treats `0` as falsy, so no truncation happens and the
full listing is returned instead of the first `0` identifiers. -/
theorem enumerator_max_results_zero_not_truncated :
    (get_all_video_ids (some 0) [] [["a"]]).length ≠ 0 := by decide

/-- C4 amended: for every channel whose uploads listing contains at least
`maxResults` videos, when `maxResults` is set to a positive value the
enumerator returns exactly the first `maxResults` identifiers in provider
order, and once the accumulated count reaches the limit it stops requesting
further pages — appending any extra pages to the provider does not change the
result. -/
theorem enumerator_truncates_at_positive_max_results (k : Nat) (pages : List (List String))
    (hk : 1 ≤ k) (hlen : k ≤ pages.flatten.length) :
    get_all_video_ids (some k) [] pages = pages.flatten.take k
    ∧ (get_all_video_ids (some k) [] pages).length = k
    ∧ ∀ extra, get_all_video_ids (some k) [] (pages ++ extra) = pages.flatten.take k := by
  have hmain := get_all_video_ids_spec k pages [] (by simpa using hk) (by simpa using hlen)
  simp only [List.nil_append] at hmain
  refine ⟨hmain, ?_, ?_⟩
  · rw [hmain, List.length_take]
    omega
  · intro extra
    have h2 : k ≤ (pages ++ extra).flatten.length := by
      rw [List.flatten_append, List.length_append]
      omega
    have := get_all_video_ids_spec k (pages ++ extra) [] (by simpa using hk) (by simpa using h2)
    simp only [List.nil_append] at this
    rw [this, List.flatten_append]
    exact List.take_append_of_le_length hlen

/-- Witness for `enumerator_truncates_at_positive_max_results`: with
`maxResults = 1` and a single page `["a", "b"]` the enumerator returns
`["a"]`. -/
theorem enumerator_truncates_witness :
    1 ≤ 1 ∧ 1 ≤ ([["a", "b"]] : List (List String)).flatten.length
    ∧ get_all_video_ids (some 1) [] [["a", "b"]] = ([["a", "b"]] : List (List String)).flatten.take 1 :=
  ⟨by decide, by decide,
    (enumerator_truncates_at_positive_max_results 1 [["a", "b"]] (by decide) (by decide)).1⟩

/-! ### Identifier resolver (`api.py`, `get_channel_id`) -/

/-- Helper for `strIn`: does `pat` occur as a contiguous run in the character
list? -/
def containsAux (pat : List Char) : List Char → Bool
  | [] => pat.isEmpty
  | c :: rest => pat.isPrefixOf (c :: rest) || containsAux pat rest

/-- Python substring membership `pat in s` (for nonempty `pat`), used by the
source in checks such as `"youtube.com" in identifier`. -/
def strIn (pat s : String) : Bool := containsAux pat.data s.data

/-- Python `s.split(sep)[-1].split("?")[0].split("/")[0]`, the URL segment
extraction used in api.py lines 38, 44, 47 and 50.  `String.splitOn` has the
semantics of Python `str.split` for a nonempty separator; a split result is
never empty, so the defaults of `getLastD`/`headD` are never used. -/
def extractSegment (s sep : String) : String :=
  (((((s.splitOn sep).getLastD "").splitOn "?").headD "").splitOn "/").headD ""

/-- The canonical-form test `identifier.startswith("UC") and len(identifier) == 24`
(api.py lines 31 and 39). -/
def isCanonicalChannelId (s : String) : Bool :=
  "UC".data.isPrefixOf s.data && s.length == 24

/-- The custom-URL rewriting chain of api.py lines 43-51: `/c/<name>` and
`/user/<name>` reduce to the bare name, `/@<handle>` reduces to
`"@" + handle`; anything else leaves the identifier unchanged. -/
def rewriteUrlIdentifier (identifier : String) : String :=
  if strIn "/c/" identifier then extractSegment identifier "/c/"
  else if strIn "/user/" identifier then extractSegment identifier "/user/"
  else if strIn "/@" identifier then "@" ++ extractSegment identifier "/@"
  else identifier

/-- The identifier resolver `get_channel_id` (api.py lines 9-96).  The two
lookup variants of the channels endpoint are oracles: `forHandle` and
`forUsername` return the `items` array of the response (the code treats a
missing or empty array as no result and reads `items[0]["id"]` otherwise,
modelled by `List.head?`).  The second component counts network requests.
Control flow: an identifier already in canonical form is returned with no
request; a `/channel/<id>` URL with a canonical id inside is returned with no
request; other URLs are reduced to a bare username or `@handle`; a
handle-shaped identifier is looked up by handle and, on empty result, retried
as a username; any other identifier is looked up by username only, and a
`ValueError` (modelled by `Except.error`) is raised when no lookup
succeeded. -/
def get_channel_id (forHandle forUsername : String → List String)
    (identifier₀ : String) : Except String String × Nat :=
  if isCanonicalChannelId identifier₀ then (.ok identifier₀, 0)
  else
    let isUrl := strIn "youtube.com" identifier₀ || strIn "youtu.be" identifier₀
    let fromChannelUrl : Option String :=
      if isUrl && strIn "/channel/" identifier₀ then
        let channel_id := extractSegment identifier₀ "/channel/"
        if isCanonicalChannelId channel_id then some channel_id else none
      else none
    match fromChannelUrl with
    | some channel_id => (.ok channel_id, 0)
    | none =>
      let identifier := if isUrl then rewriteUrlIdentifier identifier₀ else identifier₀
      let handle : String := ⟨identifier.data.drop 1⟩
      if "@".data.isPrefixOf identifier.data then
        match (forHandle handle).head? with
        | some channel_id => (.ok channel_id, 1)
        | none =>
          match (forUsername handle).head? with
          | some channel_id => (.ok channel_id, 2)
          | none => (.error ("Channel not found for identifier: " ++ identifier), 2)
      else
        match (forUsername identifier).head? with
        | some channel_id => (.ok channel_id, 1)
        | none => (.error ("Channel not found for identifier: " ++ identifier), 1)

/-- C9: for every channel identifier already in canonical form (prefix "UC",
length 24), the resolver returns the input unchanged and performs zero
network requests. -/
theorem resolver_canonical_id_identity (forHandle forUsername : String → List String)
    (identifier : String) (h : isCanonicalChannelId identifier = true) :
    get_channel_id forHandle forUsername identifier = (.ok identifier, 0) := by
  simp [get_channel_id, h]

/-- Witness for `resolver_canonical_id_identity` at the concrete canonical id
"UCabcdefghijklmnopqrstuv". -/
theorem resolver_canonical_id_identity_witness :
    isCanonicalChannelId "UCabcdefghijklmnopqrstuv" = true
    ∧ get_channel_id (fun _ => []) (fun _ => []) "UCabcdefghijklmnopqrstuv"
        = (.ok "UCabcdefghijklmnopqrstuv", 0) :=
  ⟨by decide,
    resolver_canonical_id_identity (fun _ => []) (fun _ => []) "UCabcdefghijklmnopqrstuv"
      (by decide)⟩

/-- C5 fails as stated on the non-handle side: with a username-shaped
identifier whose username lookup is empty, the code raises the not-found
error after a single request and never retries the same string as a handle,
even though the handle lookup would have returned a channel. -/
theorem resolver_username_miss_no_handle_retry :
    (get_channel_id (fun _ => ["UCabcdefghijklmnopqrstuv"]) (fun _ => []) "somechannel").2 = 1
    ∧ (get_channel_id (fun _ => ["UCabcdefghijklmnopqrstuv"]) (fun _ => []) "somechannel").1
        = .error ("Channel not found for identifier: " ++ "somechannel")
    ∧ ((fun _ => ["UCabcdefghijklmnopqrstuv"]) "somechannel" : List String) ≠ [] :=
  ⟨rfl, rfl, by decide⟩

/-- C5 amended: for a non-URL, non-canonical identifier, the resolver queries
by handle first and on empty result retries the same string as a username
when the identifier is handle-shaped (prefixed with "@"), raising the
not-found error only after both variants are empty; but for a non-handle
identifier it queries by username only and raises immediately on an empty
result, never retrying as a handle (the handle endpoint never influences the
outcome). -/
theorem resolver_lookup_order (forHandle forUsername : String → List String)
    (identifier : String)
    (hcanon : isCanonicalChannelId identifier = false)
    (hurl : (strIn "youtube.com" identifier || strIn "youtu.be" identifier) = false) :
    ("@".data.isPrefixOf identifier.data = true →
      (∀ cid rest, forHandle ⟨identifier.data.drop 1⟩ = cid :: rest →
        get_channel_id forHandle forUsername identifier = (.ok cid, 1))
      ∧ (forHandle ⟨identifier.data.drop 1⟩ = [] →
          ∀ cid rest, forUsername ⟨identifier.data.drop 1⟩ = cid :: rest →
            get_channel_id forHandle forUsername identifier = (.ok cid, 2))
      ∧ (forHandle ⟨identifier.data.drop 1⟩ = [] →
          forUsername ⟨identifier.data.drop 1⟩ = [] →
            get_channel_id forHandle forUsername identifier
              = (.error ("Channel not found for identifier: " ++ identifier), 2)))
    ∧ ("@".data.isPrefixOf identifier.data = false →
      (forUsername identifier = [] →
        get_channel_id forHandle forUsername identifier
          = (.error ("Channel not found for identifier: " ++ identifier), 1))
      ∧ ∀ forHandle₁ forHandle₂ : String → List String,
          get_channel_id forHandle₁ forUsername identifier
            = get_channel_id forHandle₂ forUsername identifier) := by
  constructor
  · intro hat
    refine ⟨?_, ?_, ?_⟩
    · intro cid rest hH
      rw [List.drop_one] at hH
      simp [get_channel_id, hcanon, hurl, hat, hH]
    · intro hH cid rest hU
      rw [List.drop_one] at hH hU
      simp [get_channel_id, hcanon, hurl, hat, hH, hU]
    · intro hH hU
      rw [List.drop_one] at hH hU
      simp [get_channel_id, hcanon, hurl, hat, hH, hU]
  · intro hat
    constructor
    · intro hU
      simp [get_channel_id, hcanon, hurl, hat, hU]
    · intro fH₁ fH₂
      simp [get_channel_id, hcanon, hurl, hat]

/-- Witness for `resolver_lookup_order`: for the handle-shaped identifier
"@chan" whose handle lookup returns a channel, the resolver answers with one
request. -/
theorem resolver_lookup_order_witness :
    isCanonicalChannelId "@chan" = false
    ∧ (strIn "youtube.com" "@chan" || strIn "youtu.be" "@chan") = false
    ∧ "@".data.isPrefixOf "@chan".data = true
    ∧ get_channel_id (fun _ => ["UCabcdefghijklmnopqrstuv"]) (fun _ => []) "@chan"
        = (.ok "UCabcdefghijklmnopqrstuv", 1) :=
  ⟨by decide, by decide, by decide,
    ((resolver_lookup_order (fun _ => ["UCabcdefghijklmnopqrstuv"]) (fun _ => []) "@chan"
        (by decide) (by decide)).1 (by decide)).1 "UCabcdefghijklmnopqrstuv" [] rfl⟩

/-! ### Persistence writer (`transcript.py`, `save_transcript`) -/

/-- The deterministic target path `output_path / f"{video_id}.md"` computed by
`save_transcript` (transcript.py line 77) and by the orchestrator's
skip-existing check (transcript.py line 180). -/
def transcript_file_path (output_dir video_id : String) : String :=
  output_dir ++ "/" ++ video_id ++ ".md"

/-- Everything `save_transcript` writes before the transcript body
(transcript.py lines 79-101), in write order: the title line (metadata title
when the metadata dict is truthy, else the video id), the video id and URL
lines, the optional metadata lines — each emitted only when the field is
truthy, i.e. a nonempty string — the `---` separator and the transcript
section heading.  `metadata = none` models both `metadata=None` and the falsy
empty dict. -/
def transcriptDocHeader (video_id : String) (metadata : Option VideoMetadata) : String :=
  let title := match metadata with
    | some m => m.title
    | none => video_id
  "# " ++ title ++ "\n\n"
    ++ "**Video ID:** " ++ video_id ++ "\n\n"
    ++ "**Video URL:** https://www.youtube.com/watch?v=" ++ video_id ++ "\n\n"
    ++ (match metadata with
        | none => ""
        | some m =>
          (if m.channelTitle ≠ "" then "**Channel:** " ++ m.channelTitle ++ "\n\n" else "")
            ++ (if m.publishedAt ≠ "" then "**Published:** " ++ m.publishedAt ++ "\n\n" else "")
            ++ (if m.duration ≠ "" then "**Duration:** " ++ m.duration ++ "\n\n" else "")
            ++ (if m.viewCount ≠ "" then "**Views:** " ++ m.viewCount ++ "\n\n" else "")
            ++ (if m.description ≠ ""
                then "## Description\n\n" ++ m.description ++ "\n\n" else ""))
    ++ "---\n\n"
    ++ "## Transcript\n\n"

/-- The persistence writer `save_transcript` (transcript.py lines 56-104):
returns the target path and the full document written to it — the header
followed by the transcript text verbatim as the final write. -/
def save_transcript (video_id transcript_text : String) (output_dir : String)
    (metadata : Option VideoMetadata) : String × String :=
  (transcript_file_path output_dir video_id,
    transcriptDocHeader video_id metadata ++ transcript_text)

/-- Parsing a saved document back: drop the header of the video's document
(determined by the video id and its known metadata) and keep the rest, i.e.
the final section after the separator. -/
def parseSavedTranscript (video_id : String) (metadata : Option VideoMetadata)
    (doc : String) : String :=
  ⟨doc.data.drop (transcriptDocHeader video_id metadata).data.length⟩

/-- C8: `save_transcript` writes to the deterministic path
`output_dir/<video_id>.md` — the path depends only on the output directory
and the video id, never on transcript text or metadata — and the written
document is the header followed by the separator, the transcript heading and
the transcript text verbatim as its final section; parsing the document back
recovers the transcript text byte-for-byte. -/
theorem save_transcript_path_and_roundtrip (video_id transcript_text output_dir : String)
    (metadata : Option VideoMetadata) :
    (save_transcript video_id transcript_text output_dir metadata).1
        = output_dir ++ "/" ++ video_id ++ ".md"
    ∧ (∀ (transcript₂ : String) (metadata₂ : Option VideoMetadata),
        (save_transcript video_id transcript₂ output_dir metadata₂).1
          = (save_transcript video_id transcript_text output_dir metadata).1)
    ∧ (∃ front, (save_transcript video_id transcript_text output_dir metadata).2
        = front ++ ("---\n\n" ++ "## Transcript\n\n" ++ transcript_text))
    ∧ parseSavedTranscript video_id metadata
        (save_transcript video_id transcript_text output_dir metadata).2 = transcript_text := by
  refine ⟨rfl, fun _ _ => rfl, ?_, ?_⟩
  · refine ⟨"# " ++ (match metadata with
        | some m => m.title
        | none => video_id) ++ "\n\n"
      ++ "**Video ID:** " ++ video_id ++ "\n\n"
      ++ "**Video URL:** https://www.youtube.com/watch?v=" ++ video_id ++ "\n\n"
      ++ (match metadata with
          | none => ""
          | some m =>
            (if m.channelTitle ≠ "" then "**Channel:** " ++ m.channelTitle ++ "\n\n" else "")
              ++ (if m.publishedAt ≠ "" then "**Published:** " ++ m.publishedAt ++ "\n\n" else "")
              ++ (if m.duration ≠ "" then "**Duration:** " ++ m.duration ++ "\n\n" else "")
              ++ (if m.viewCount ≠ "" then "**Views:** " ++ m.viewCount ++ "\n\n" else "")
              ++ (if m.description ≠ ""
                  then "## Description\n\n" ++ m.description ++ "\n\n" else "")), ?_⟩
    simp only [save_transcript, transcriptDocHeader]
    simp only [String.append_assoc]
  · apply String.ext
    simp only [parseSavedTranscript, save_transcript, String.data_append]
    exact List.drop_left _ _

/-! ### Collection orchestrator (`transcript.py`, `download_channel_transcripts`) -/

/-- The orchestrator's run state: the `stats` dict of transcript.py lines
157-163 plus the filesystem, modelled as the list of file paths that exist
(file contents are irrelevant to the loop's control flow).  `total_videos` is
set once from the enumerated list and never changed by the loop. -/
structure RunState where
  total_videos : Nat
  downloaded : Nat
  skipped : Nat
  failed : Nat
  failed_videos : List String
  fs : List String
  deriving DecidableEq

/-- One iteration of the orchestrator's per-video loop (transcript.py lines
179-220).  `fetchTranscript` is `download_transcript`: it returns `none` when
no transcript is available (the fetcher catches every exception and returns
`None`), and the joined transcript text otherwise.  If `skip_existing` is set
and the target path exists, the video is skipped with no fetch; otherwise the
fetch result is tested by Python truthiness (`if transcript_text:`), so a
non-`None`, nonempty text is saved (the path is added to the filesystem) and
counted as downloaded, while `None` — and also the empty string — increments
`failed` and appends the video id to `failed_videos`.  Progress-bar updates
and the metadata lookup (which only affect console output and saved file
content) are elided. -/
def processVideo (output_dir : String) (skip_existing : Bool)
    (fetchTranscript : String → Option String) (s : RunState) (video_id : String) : RunState :=
  let file_path := transcript_file_path output_dir video_id
  if skip_existing && s.fs.contains file_path then
    { s with skipped := s.skipped + 1 }
  else
    match fetchTranscript video_id with
    | some transcript_text =>
      if transcript_text ≠ "" then
        { s with downloaded := s.downloaded + 1, fs := file_path :: s.fs }
      else
        { s with failed := s.failed + 1, failed_videos := s.failed_videos ++ [video_id] }
    | none =>
      { s with failed := s.failed + 1, failed_videos := s.failed_videos ++ [video_id] }

/-- The orchestrator `download_channel_transcripts` (transcript.py lines
107-247) after enumeration and metadata retrieval: fold the per-video loop
over the enumerated `video_ids`, starting from zeroed statistics and the
initial filesystem `fs₀`. -/
def download_channel_transcripts (output_dir : String) (skip_existing : Bool)
    (fetchTranscript : String → Option String) (fs₀ : List String)
    (video_ids : List String) : RunState :=
  video_ids.foldl (processVideo output_dir skip_existing fetchTranscript)
    { total_videos := video_ids.length, downloaded := 0, skipped := 0, failed := 0,
      failed_videos := [], fs := fs₀ }

lemma processVideo_step (output_dir : String) (skip_existing : Bool)
    (fetch : String → Option String) (s : RunState) (v : String) :
    processVideo output_dir skip_existing fetch s v
        = { s with downloaded := s.downloaded + 1, fs := transcript_file_path output_dir v :: s.fs }
    ∨ processVideo output_dir skip_existing fetch s v = { s with skipped := s.skipped + 1 }
    ∨ processVideo output_dir skip_existing fetch s v
        = { s with failed := s.failed + 1, failed_videos := s.failed_videos ++ [v] } := by
  unfold processVideo
  by_cases hskip : (skip_existing && s.fs.contains (transcript_file_path output_dir v)) = true
  · rw [if_pos hskip]
    exact Or.inr (Or.inl rfl)
  · rw [if_neg hskip]
    cases fetch v with
    | none => exact Or.inr (Or.inr rfl)
    | some t =>
      dsimp only
      by_cases ht : t ≠ ""
      · rw [if_pos ht]
        exact Or.inl rfl
      · rw [if_neg ht]
        exact Or.inr (Or.inr rfl)

lemma foldl_counts (output_dir : String) (skip_existing : Bool)
    (fetch : String → Option String) :
    ∀ (video_ids : List String) (s : RunState),
      (video_ids.foldl (processVideo output_dir skip_existing fetch) s).downloaded
          + (video_ids.foldl (processVideo output_dir skip_existing fetch) s).skipped
          + (video_ids.foldl (processVideo output_dir skip_existing fetch) s).failed
        = s.downloaded + s.skipped + s.failed + video_ids.length
      ∧ (video_ids.foldl (processVideo output_dir skip_existing fetch) s).total_videos
        = s.total_videos := by
  intro video_ids
  induction video_ids with
  | nil =>
    intro s
    simp
  | cons v rest ih =>
    intro s
    rw [List.foldl_cons]
    rcases processVideo_step output_dir skip_existing fetch s v with h | h | h
    · rw [h]
      set s' : RunState :=
        { s with downloaded := s.downloaded + 1, fs := transcript_file_path output_dir v :: s.fs }
      have h1 : (rest.foldl (processVideo output_dir skip_existing fetch) s').downloaded
            + (rest.foldl (processVideo output_dir skip_existing fetch) s').skipped
            + (rest.foldl (processVideo output_dir skip_existing fetch) s').failed
          = (s.downloaded + 1) + s.skipped + s.failed + rest.length := (ih s').1
      have h2 : (rest.foldl (processVideo output_dir skip_existing fetch) s').total_videos
          = s.total_videos := (ih s').2
      refine ⟨?_, h2⟩
      rw [h1]
      simp only [List.length_cons]
      omega
    · rw [h]
      set s' : RunState := { s with skipped := s.skipped + 1 }
      have h1 : (rest.foldl (processVideo output_dir skip_existing fetch) s').downloaded
            + (rest.foldl (processVideo output_dir skip_existing fetch) s').skipped
            + (rest.foldl (processVideo output_dir skip_existing fetch) s').failed
          = s.downloaded + (s.skipped + 1) + s.failed + rest.length := (ih s').1
      have h2 : (rest.foldl (processVideo output_dir skip_existing fetch) s').total_videos
          = s.total_videos := (ih s').2
      refine ⟨?_, h2⟩
      rw [h1]
      simp only [List.length_cons]
      omega
    · rw [h]
      set s' : RunState :=
        { s with failed := s.failed + 1, failed_videos := s.failed_videos ++ [v] }
      have h1 : (rest.foldl (processVideo output_dir skip_existing fetch) s').downloaded
            + (rest.foldl (processVideo output_dir skip_existing fetch) s').skipped
            + (rest.foldl (processVideo output_dir skip_existing fetch) s').failed
          = s.downloaded + s.skipped + (s.failed + 1) + rest.length := (ih s').1
      have h2 : (rest.foldl (processVideo output_dir skip_existing fetch) s').total_videos
          = s.total_videos := (ih s').2
      refine ⟨?_, h2⟩
      rw [h1]
      simp only [List.length_cons]
      omega

/-- C1: for every run of the orchestrator, each enumerated video is recorded
with exactly one of the three outcomes — downloaded, skipped or failed
(every loop iteration increments exactly one of the three counters by one,
leaving the other two unchanged) — so at loop end
downloaded + skipped + failed = total_videos. -/
theorem orchestrator_outcome_partition (output_dir : String) (skip_existing : Bool)
    (fetch : String → Option String) (fs₀ : List String) (video_ids : List String) :
    ((download_channel_transcripts output_dir skip_existing fetch fs₀ video_ids).downloaded
        + (download_channel_transcripts output_dir skip_existing fetch fs₀ video_ids).skipped
        + (download_channel_transcripts output_dir skip_existing fetch fs₀ video_ids).failed
      = (download_channel_transcripts output_dir skip_existing fetch fs₀ video_ids).total_videos)
    ∧ (download_channel_transcripts output_dir skip_existing fetch fs₀ video_ids).total_videos
      = video_ids.length
    ∧ ∀ (s : RunState) (v : String),
        ((processVideo output_dir skip_existing fetch s v).downloaded = s.downloaded + 1
          ∧ (processVideo output_dir skip_existing fetch s v).skipped = s.skipped
          ∧ (processVideo output_dir skip_existing fetch s v).failed = s.failed)
        ∨ ((processVideo output_dir skip_existing fetch s v).downloaded = s.downloaded
          ∧ (processVideo output_dir skip_existing fetch s v).skipped = s.skipped + 1
          ∧ (processVideo output_dir skip_existing fetch s v).failed = s.failed)
        ∨ ((processVideo output_dir skip_existing fetch s v).downloaded = s.downloaded
          ∧ (processVideo output_dir skip_existing fetch s v).skipped = s.skipped
          ∧ (processVideo output_dir skip_existing fetch s v).failed = s.failed + 1) := by
  have hfold := foldl_counts output_dir skip_existing fetch video_ids
    { total_videos := video_ids.length, downloaded := 0, skipped := 0, failed := 0,
      failed_videos := [], fs := fs₀ }
  refine ⟨?_, ?_, ?_⟩
  · have h1 : (download_channel_transcripts output_dir skip_existing fetch fs₀ video_ids).downloaded
          + (download_channel_transcripts output_dir skip_existing fetch fs₀ video_ids).skipped
          + (download_channel_transcripts output_dir skip_existing fetch fs₀ video_ids).failed
        = 0 + 0 + 0 + video_ids.length := hfold.1
    have h2 : (download_channel_transcripts output_dir skip_existing fetch fs₀ video_ids).total_videos
        = video_ids.length := hfold.2
    rw [h1, h2]
    omega
  · exact hfold.2
  · intro s v
    rcases processVideo_step output_dir skip_existing fetch s v with h | h | h
    · exact Or.inl (by rw [h]; exact ⟨rfl, rfl, rfl⟩)
    · exact Or.inr (Or.inl (by rw [h]; exact ⟨rfl, rfl, rfl⟩))
    · exact Or.inr (Or.inr (by rw [h]; exact ⟨rfl, rfl, rfl⟩))

/-- C3: when `skip_existing` is set and the target document path of a video
exists at the time the video is reached, the orchestrator's loop iteration
increments only the skipped counter — downloaded, failed, failed_videos and
the filesystem are untouched (no file written) — and the transcript fetcher
is never consulted: the iteration's result is the same for every fetcher. -/
theorem orchestrator_skip_existing_behavior (output_dir : String)
    (fetch : String → Option String) (s : RunState) (video_id : String)
    (h : s.fs.contains (transcript_file_path output_dir video_id) = true) :
    processVideo output_dir true fetch s video_id = { s with skipped := s.skipped + 1 }
    ∧ ∀ fetch₂ : String → Option String,
        processVideo output_dir true fetch₂ s video_id
          = processVideo output_dir true fetch s video_id := by
  have hcond : (true && s.fs.contains (transcript_file_path output_dir video_id)) = true := by
    rw [Bool.true_and, h]
  constructor
  · unfold processVideo
    rw [if_pos hcond]
  · intro fetch₂
    unfold processVideo
    rw [if_pos hcond, if_pos hcond]

/-- Witness for `orchestrator_skip_existing_behavior`: a state whose
filesystem already holds `out/vid1.md` leads to a pure skip. -/
theorem orchestrator_skip_existing_behavior_witness :
    (RunState.mk 1 0 0 0 [] ["out/vid1.md"]).fs.contains
        (transcript_file_path "out" "vid1") = true
    ∧ processVideo "out" true (fun _ => some "text")
        (RunState.mk 1 0 0 0 [] ["out/vid1.md"]) "vid1"
      = RunState.mk 1 0 1 0 [] ["out/vid1.md"] :=
  ⟨by decide,
    (orchestrator_skip_existing_behavior "out" (fun _ => some "text")
      (RunState.mk 1 0 0 0 [] ["out/vid1.md"]) "vid1" (by decide)).1⟩

/-- C2 fails as stated: the orchestrator tests the fetch result with Python
truthiness (`if transcript_text:`), so a successfully fetched transcript that
is the empty string is treated like `None` — the video is marked failed, not
downloaded, even though the fetcher did not return Absent. -/
theorem orchestrator_empty_transcript_marked_failed :
    (download_channel_transcripts "transcriptions" true (fun _ => some "") [] ["vid1"]).failed = 1
    ∧ (download_channel_transcripts "transcriptions" true (fun _ => some "") [] ["vid1"]).downloaded
      = 0
    ∧ ((fun _ => some "") "vid1" : Option String) ≠ none :=
  ⟨rfl, rfl, by decide⟩

/-- C2 amended: for every video processed by the orchestrator (not skipped),
the video is marked failed — `failed` incremented and the id appended to
`failed_videos` — if and only if the transcript fetch result is Absent
(`None`) or the empty string (Python truthiness of `if transcript_text:`);
it is persisted and marked downloaded if and only if the fetch returned a
nonempty text. -/
theorem orchestrator_failed_iff_absent_or_empty (output_dir : String) (skip_existing : Bool)
    (fetch : String → Option String) (s : RunState) (video_id : String)
    (h : (skip_existing && s.fs.contains (transcript_file_path output_dir video_id)) = false) :
    ((processVideo output_dir skip_existing fetch s video_id).failed = s.failed + 1
        ∧ (processVideo output_dir skip_existing fetch s video_id).failed_videos
          = s.failed_videos ++ [video_id]
      ↔ fetch video_id = none ∨ fetch video_id = some "")
    ∧ ((processVideo output_dir skip_existing fetch s video_id).downloaded = s.downloaded + 1
        ∧ (processVideo output_dir skip_existing fetch s video_id).fs
          = transcript_file_path output_dir video_id :: s.fs
      ↔ ∃ t, fetch video_id = some t ∧ t ≠ "") := by
  unfold processVideo
  rw [if_neg (by rw [h]; exact Bool.false_ne_true)]
  cases hf : fetch video_id with
  | none =>
    dsimp only
    constructor
    · simp
    · simp
  | some t =>
    dsimp only
    by_cases ht : t = ""
    · subst ht
      rw [if_neg (by simp)]
      constructor
      · simp
      · constructor
        · intro hc
          exact absurd hc.1 (by simp)
        · rintro ⟨t', ht1, ht2⟩
          exact absurd (Option.some.inj ht1) (Ne.symm ht2)
    · rw [if_pos ht]
      constructor
      · constructor
        · intro hc
          exact absurd hc.1 (by simp)
        · rintro (hc | hc)
          · exact absurd hc (by simp)
          · exact absurd (Option.some.inj hc) ht
      · constructor
        · intro _
          exact ⟨t, rfl, ht⟩
        · intro _
          exact ⟨rfl, rfl⟩

/-- Witness for `orchestrator_failed_iff_absent_or_empty`: a fetch returning
`None` for a video that is not skipped marks it failed and appends it to the
failed list. -/
theorem orchestrator_failed_iff_witness :
    (true && (RunState.mk 1 0 0 0 [] []).fs.contains (transcript_file_path "out" "vid1")) = false
    ∧ ((processVideo "out" true (fun _ => none) (RunState.mk 1 0 0 0 [] []) "vid1").failed
          = (RunState.mk 1 0 0 0 [] []).failed + 1
        ∧ (processVideo "out" true (fun _ => none) (RunState.mk 1 0 0 0 [] []) "vid1").failed_videos
          = (RunState.mk 1 0 0 0 [] []).failed_videos ++ ["vid1"]) :=
  ⟨by decide,
    ((orchestrator_failed_iff_absent_or_empty "out" true (fun _ => none)
        (RunState.mk 1 0 0 0 [] []) "vid1" (by decide)).1).mpr (Or.inl rfl)⟩

lemma foldl_failed_videos (output_dir : String) (skip_existing : Bool)
    (fetch : String → Option String) :
    ∀ (video_ids : List String) (s : RunState),
      ∃ d : List String,
        (video_ids.foldl (processVideo output_dir skip_existing fetch) s).failed_videos
            = s.failed_videos ++ d
        ∧ d.Sublist video_ids
        ∧ (video_ids.foldl (processVideo output_dir skip_existing fetch) s).failed
            = s.failed + d.length := by
  intro video_ids
  induction video_ids with
  | nil =>
    intro s
    exact ⟨[], by simp, List.nil_sublist _, by simp⟩
  | cons v rest ih =>
    intro s
    rw [List.foldl_cons]
    rcases processVideo_step output_dir skip_existing fetch s v with h | h | h
    · rw [h]
      set s' : RunState :=
        { s with downloaded := s.downloaded + 1, fs := transcript_file_path output_dir v :: s.fs }
      obtain ⟨d, hd1, hd2, hd3⟩ := ih s'
      exact ⟨d, hd1, hd2.cons v, hd3⟩
    · rw [h]
      set s' : RunState := { s with skipped := s.skipped + 1 }
      obtain ⟨d, hd1, hd2, hd3⟩ := ih s'
      exact ⟨d, hd1, hd2.cons v, hd3⟩
    · rw [h]
      set s' : RunState :=
        { s with failed := s.failed + 1, failed_videos := s.failed_videos ++ [v] }
      obtain ⟨d, hd1, hd2, hd3⟩ := ih s'
      refine ⟨v :: d, ?_, hd2.cons₂ v, ?_⟩
      · have hd1' : (rest.foldl (processVideo output_dir skip_existing fetch) s').failed_videos
            = (s.failed_videos ++ [v]) ++ d := hd1
        rw [hd1', List.append_assoc]
        rfl
      · have hd3' : (rest.foldl (processVideo output_dir skip_existing fetch) s').failed
            = (s.failed + 1) + d.length := hd3
        rw [hd3']
        simp only [List.length_cons]
        omega

/-- C10 fails as stated when the enumerated list contains a duplicate: both
occurrences of the id fail, so the id appears twice in `failed_videos`,
violating "each VideoId appearing at most once". -/
theorem failed_videos_duplicate_possible :
    (download_channel_transcripts "transcriptions" true (fun _ => none) []
        ["vid1", "vid1"]).failed_videos = ["vid1", "vid1"]
    ∧ ¬ (List.count "vid1"
          (download_channel_transcripts "transcriptions" true (fun _ => none) []
            ["vid1", "vid1"]).failed_videos ≤ 1) :=
  ⟨rfl, by decide⟩

/-- C10 amended: for every run of the orchestrator, the returned statistics
satisfy `failed = length of failed_videos`, and `failed_videos` is a
subsequence of the enumerated list in enumeration order (only videos whose
fetch was recorded as failed are appended, in processing order); whenever the
enumerated list has no duplicates, each VideoId appears in `failed_videos` at
most once. -/
theorem failed_videos_accounting (output_dir : String) (skip_existing : Bool)
    (fetch : String → Option String) (fs₀ : List String) (video_ids : List String) :
    (download_channel_transcripts output_dir skip_existing fetch fs₀ video_ids).failed
      = (download_channel_transcripts output_dir skip_existing fetch fs₀ video_ids).failed_videos.length
    ∧ (download_channel_transcripts output_dir skip_existing fetch fs₀
        video_ids).failed_videos.Sublist video_ids
    ∧ (video_ids.Nodup →
        (download_channel_transcripts output_dir skip_existing fetch fs₀
          video_ids).failed_videos.Nodup) := by
  obtain ⟨d, hd1, hd2, hd3⟩ := foldl_failed_videos output_dir skip_existing fetch video_ids
    { total_videos := video_ids.length, downloaded := 0, skipped := 0, failed := 0,
      failed_videos := [], fs := fs₀ }
  have hd1' : (download_channel_transcripts output_dir skip_existing fetch fs₀
      video_ids).failed_videos = [] ++ d := hd1
  have hd3' : (download_channel_transcripts output_dir skip_existing fetch fs₀
      video_ids).failed = 0 + d.length := hd3
  rw [List.nil_append] at hd1'
  refine ⟨?_, ?_, ?_⟩
  · rw [hd1', hd3']
    omega
  · rw [hd1']
    exact hd2
  · intro hnodup
    rw [hd1']
    exact hd2.nodup hnodup

/-- Witness for `failed_videos_accounting`: on the duplicate-free enumerated
list `["vid1"]` the failed list also has no duplicates. -/
theorem failed_videos_accounting_witness :
    (["vid1"] : List String).Nodup
    ∧ (download_channel_transcripts "out" true (fun _ => none) [] ["vid1"]).failed_videos.Nodup :=
  ⟨by decide,
    (failed_videos_accounting "out" true (fun _ => none) [] ["vid1"]).2.2 (by decide)⟩

end YTC
